import Mathlib

/-!
Shallow embedding of `phone.validator.ai.py`, a sequential batch phone-number
validation script.  External collaborators (the telephony provider, the HTTP
layer, the speech-recognition service, the file system and the clock) are
modelled as explicit environment records of fallible functions; the Python
code of the repository is translated function by function.  Python exceptions
are modelled with `Except`, Python `None`/string truthiness with explicit
helpers, and Python `str.strip` / `str.lower` / substring `in` with
executable character-list functions.
-/

set_option autoImplicit false

namespace PhoneValidatorAI

/-- Python string truthiness for an `Optional[str]` value: `None` and the
empty string are falsy, every other string is truthy. -/
def pyTruthy : Option String → Bool
  | none => false
  | some s => !(s.isEmpty)

/-- Python whitespace characters stripped by `str.strip()`. -/
def isSpaceChar (c : Char) : Bool :=
  c = ' ' || c = '\t' || c = '\n' || c = '\r' || c = '\x0b' || c = '\x0c'

/-- Model of Python `str.strip()`: remove leading and trailing whitespace. -/
def pyStrip (s : String) : String :=
  String.mk (((s.data.dropWhile isSpaceChar).reverse.dropWhile isSpaceChar).reverse)

/-- Simple lower-casing of one character, covering the character ranges this
program actually uses: ASCII `A`-`Z` and the Cyrillic block (including the
Ukrainian letters `Є`, `І`, `Ї`, `Ґ`), matching Python `str.lower` there. -/
def pyLowerChar (c : Char) : Char :=
  let n := c.toNat
  if 65 ≤ n ∧ n ≤ 90 then Char.ofNat (n + 32)
  else if 0x410 ≤ n ∧ n ≤ 0x42F then Char.ofNat (n + 32)
  else if 0x400 ≤ n ∧ n ≤ 0x40F then Char.ofNat (n + 80)
  else if n = 0x490 then Char.ofNat 0x491
  else c

/-- Model of Python `str.lower()` on the character ranges used here. -/
def pyLower (s : String) : String :=
  String.mk (s.data.map pyLowerChar)

/-- Python substring test `needle in hay`, by checking `needle` as a prefix at
every position of `hay`. -/
def containsSub (hay needle : String) : Bool :=
  go needle.data hay.data
where
  /-- Check the needle at every suffix of the haystack. -/
  go (n : List Char) : List Char → Bool
    | [] => n.isEmpty
    | c :: rest => n.isPrefixOf (c :: rest) || go n rest

/-- Python `sep.join(parts)`. -/
def pyJoin (sep : String) : List String → String
  | [] => ""
  | [x] => x
  | x :: y :: rest => x ++ sep ++ pyJoin sep (y :: rest)

/-- A Python exception, as raised by the libraries the script calls:
either a `TwilioRestException` or any other `Exception`. -/
inductive PyExn where
  | twilioErr (msg : String)
  | generalErr (msg : String)
  deriving DecidableEq

/-- Failure opening/reading the input file: `FileNotFoundError` or any other
read failure. -/
inductive FileErr where
  | fileNotFound
  | otherErr (msg : String)
  deriving DecidableEq

/-- Validation status of one number, the `status` column of the output. -/
inductive Status where
  | VALID
  | INVALID
  | ERROR
  deriving DecidableEq

/-- One row of the output table (the dict built by `validate_phone_number`). -/
structure ValidationResult where
  phone : String
  status : Status
  transcribed_text : String
  call_sid : Option String
  timestamp : String
  deriving DecidableEq

/-- A parsed CSV row as produced by `csv.DictReader`: a finite map from
column names to cell values, modelled as an association list. -/
abbrev Row := List (String × String)

/-- Dictionary lookup `row[k]` / `k in row` on a parsed CSV row. -/
def dictGet (row : Row) (k : String) : Option String :=
  (row.find? (fun kv => kv.1 == k)).map (fun kv => kv.2)

/-- The four required environment variables checked by
`_validate_credentials`. -/
def required_vars : List String :=
  ["TWILIO_ACCOUNT_SID", "TWILIO_AUTH_TOKEN", "TWILIO_PHONE_NUMBER", "OPENAI_API_KEY"]

/-- The fixed denylist `self.invalid_phrases` of carrier-failure phrases. -/
def invalid_phrases : List String :=
  ["недоступний", "номер не обслуговується", "невірно набраний",
   "поза зоною", "абонент відсутній", "номер відключений",
   "неправильний номер", "не існує", "тимчасово недоступний",
   "номер заблокований", "послуга недоступна"]

/-- The configuration fields a successfully constructed `PhoneValidator`
carries (credentials are kept abstract; the numeric settings are fixed). -/
structure PhoneValidator where
  invalid_phrases_field : List String
  call_delay : Nat
  recording_duration : Nat

/-- Model of `_validate_credentials`: collect every required variable whose
environment value is falsy and raise a `ValueError` listing all of them. -/
def validate_credentials (getenv : String → Option String) : Except String Unit :=
  let missing_vars := required_vars.filter (fun v => !pyTruthy (getenv v))
  if missing_vars.isEmpty then Except.ok ()
  else Except.error ("Відсутні змінні середовища: " ++ pyJoin ", " missing_vars)

/-- Model of `PhoneValidator.__init__`: set the fixed fields and run
`_validate_credentials`, failing with its `ValueError` when it raises. -/
def phoneValidator_init (getenv : String → Option String) : Except String PhoneValidator :=
  match validate_credentials getenv with
  | Except.error e => Except.error e
  | Except.ok _ =>
      Except.ok { invalid_phrases_field := invalid_phrases, call_delay := 2, recording_duration := 10 }

/-- Loop body of `read_phone_numbers`: keep `row['phone'].strip()` whenever
the row has a `phone` key whose stripped value is non-empty. -/
def collectPhones : List Row → List String
  | [] => []
  | row :: rest =>
    match dictGet row "phone" with
    | none => collectPhones rest
    | some v =>
      if pyStrip v = "" then collectPhones rest
      else pyStrip v :: collectPhones rest

/-- Model of `read_phone_numbers`.  The argument stands for the outcome of
opening and parsing the CSV file: a list of rows, a `FileNotFoundError`, or
another read failure.  Both handlers return the empty list. -/
def read_phone_numbers (file : Except FileErr (List Row)) : Except PyExn (List String) :=
  match file with
  | Except.error FileErr.fileNotFound => Except.ok []
  | Except.error (FileErr.otherErr _) => Except.ok []
  | Except.ok rows => Except.ok (collectPhones rows)

/-- Modelled from the spec (section 4.2): the reader's documented output, an
ordered filter-map keeping the stripped `phone` cell of each row that has a
non-blank one.  Used only to compare with `read_phone_numbers`. -/
def readPhoneNumbersSpec (rows : List Row) : List String :=
  rows.filterMap (fun row =>
    match dictGet row "phone" with
    | none => none
    | some v => if pyStrip v = "" then none else some (pyStrip v))

/-- The telephony provider as seen by `make_call_with_recording`:
`create` places the call and yields `call.sid`; `recordings` lists the
recording identifiers attached to a call sid (most recent first, as the
`limit=1` query returns them).  Either step may raise. -/
structure TwilioCallApi where
  create : Except PyExn String
  recordings : String → Except PyExn (List String)

/-- The `try` block of `make_call_with_recording`: place the call, wait
(timing is not modelled), list recordings and take the first one. -/
def callTryBody (api : TwilioCallApi) : Except PyExn (Option String × Option String) :=
  match api.create with
  | Except.error e => Except.error e
  | Except.ok sid =>
    match api.recordings sid with
    | Except.error e => Except.error e
    | Except.ok recs => Except.ok (some sid, recs.head?)

/-- Model of `make_call_with_recording`: run the `try` body; the
`TwilioRestException` handler and the general `Exception` handler both log
and return `(None, None)`. -/
def make_call_with_recording (api : TwilioCallApi) :
    Except PyExn (Option String × Option String) :=
  match callTryBody api with
  | Except.ok v => Except.ok v
  | Except.error (PyExn.twilioErr _) => Except.ok (none, none)
  | Except.error (PyExn.generalErr _) => Except.ok (none, none)

/-- The provider endpoints used by `download_recording`: fetch the recording
metadata (its `uri`) and perform an authenticated HTTP GET returning a status
code.  Persisting the bytes is kept abstract. -/
structure DownloadApi where
  fetchMeta : String → Except PyExn String
  httpGet : String → Except PyExn Nat

/-- Model of `download_recording`: `None` for a falsy recording sid; on a 200
response the deterministic local filename is returned; every failure path
(non-200 status or any exception) yields `None`. -/
def download_recording (api : DownloadApi) (recording_sid : Option String) : Option String :=
  match recording_sid with
  | none => none
  | some rsid =>
    if rsid = "" then none
    else
      match api.fetchMeta rsid with
      | Except.error _ => none
      | Except.ok uri =>
        match api.httpGet ("https://api.twilio.com" ++ String.replace uri ".json" ".mp3") with
        | Except.error _ => none
        | Except.ok status =>
          if status = 200 then some ("recording_" ++ rsid ++ ".mp3") else none

/-- Model of `transcribe_audio`: empty string for a falsy or non-existent
path; otherwise call the speech service (its response's optional `text`
field, defaulting to `""`, is lower-cased), delete the artifact, and return
the text; any exception in the `try` block yields the empty string. -/
def transcribe_audio (fsExists : String → Bool) (whisper : String → Except PyExn (Option String))
    (removeFile : String → Except PyExn Unit) (audio_file : Option String) : String :=
  match audio_file with
  | none => ""
  | some f =>
    if f = "" then ""
    else if fsExists f = false then ""
    else
      match whisper f with
      | Except.error _ => ""
      | Except.ok resp =>
        match removeFile f with
        | Except.error _ => ""
        | Except.ok _ => pyLower (resp.getD "")

/-- Model of `is_valid_number`: false on an empty transcript, false when any
denylist phrase occurs in the lower-cased text, false when the stripped text
has fewer than 3 characters, true otherwise. -/
def is_valid_number (transcribed_text : String) : Bool :=
  if transcribed_text.isEmpty then false
  else
    let text_lower := pyLower transcribed_text
    if invalid_phrases.any (fun phrase => containsSub text_lower phrase) then false
    else if (pyStrip transcribed_text).length < 3 then false
    else true

/-- Everything external one run of the per-number pipeline touches. -/
structure PipelineEnv where
  callApi : TwilioCallApi
  dlApi : DownloadApi
  fsExists : String → Bool
  whisper : String → Except PyExn (Option String)
  removeFile : String → Except PyExn Unit
  now : String

/-- Lines 209-213 of `validate_phone_number`: download the recording and
transcribe it, with `audio_file if audio_file else ""` truthiness. -/
def pipelineTranscript (env : PipelineEnv) (recording_sid : Option String) : String :=
  let audio_file := download_recording env.dlApi recording_sid
  if pyTruthy audio_file then
    transcribe_audio env.fsExists env.whisper env.removeFile audio_file
  else ""

/-- Model of `validate_phone_number`: place the call; with no truthy call
identifier produce the fixed ERROR row; otherwise download, transcribe,
classify, and produce a VALID/INVALID row carrying the transcript. -/
def validate_phone_number (env : PipelineEnv) (phone_number : String) :
    Except PyExn ValidationResult :=
  match make_call_with_recording env.callApi with
  | Except.error e => Except.error e
  | Except.ok (call_sid, recording_sid) =>
    if pyTruthy call_sid = false then
      Except.ok { phone := phone_number, status := Status.ERROR,
                  transcribed_text := "Помилка дзвінка", call_sid := none,
                  timestamp := env.now }
    else
      let transcribed_text := pipelineTranscript env recording_sid
      let status := if is_valid_number transcribed_text then Status.VALID else Status.INVALID
      Except.ok { phone := phone_number, status := status,
                  transcribed_text := transcribed_text, call_sid := call_sid,
                  timestamp := env.now }

/-- The header row written by `process_phone_list`. -/
def fieldnames : List String :=
  ["phone", "status", "transcribed_text", "call_sid", "timestamp"]

/-- The output CSV file: its header and the result rows written to it. -/
structure OutputFile where
  header : List String
  rows : List ValidationResult
  deriving DecidableEq

/-- The per-number loop of `process_phone_list`, started at index 1 as
`enumerate(phones, 1)` does; the environment is indexed by the iteration
counter since each call meets a fresh external world. -/
def runPipeline (envs : Nat → PipelineEnv) : List String → Nat → Except PyExn (List ValidationResult)
  | [], _ => Except.ok []
  | phone :: rest, i =>
    match validate_phone_number (envs i) phone with
    | Except.error e => Except.error e
    | Except.ok r =>
      match runPipeline envs rest (i + 1) with
      | Except.error e => Except.error e
      | Except.ok rs => Except.ok (r :: rs)

/-- Model of `process_phone_list`: read the numbers; on an empty list log and
return with no output file at all; otherwise create the file, write the
header, and append one result row per number in order.  The returned value is
the final content of the output file (`none` = never created). -/
def process_phone_list (envs : Nat → PipelineEnv) (file : Except FileErr (List Row)) :
    Except PyExn (Option OutputFile) :=
  match read_phone_numbers file with
  | Except.error e => Except.error e
  | Except.ok phones =>
    if phones.isEmpty then Except.ok none
    else
      match runPipeline envs phones 1 with
      | Except.error e => Except.error e
      | Except.ok results => Except.ok (some { header := fieldnames, rows := results })

/-- A download environment whose network calls all fail, for concrete runs. -/
def dlApiStub : DownloadApi :=
  { fetchMeta := fun _ => Except.error (PyExn.generalErr "net"),
    httpGet := fun _ => Except.error (PyExn.generalErr "net") }

/-- A provider where the call succeeds with sid `CA123` but no recording is
found, for concrete runs. -/
def apiCallOkNoRec : TwilioCallApi :=
  { create := Except.ok "CA123", recordings := fun _ => Except.ok [] }

/-- A provider whose call placement raises a `TwilioRestException`. -/
def apiCallFail : TwilioCallApi :=
  { create := Except.error (PyExn.twilioErr "boom"), recordings := fun _ => Except.ok [] }

/-- Concrete pipeline environment: call placed, no recording found. -/
def envOkNoRec : PipelineEnv :=
  { callApi := apiCallOkNoRec, dlApi := dlApiStub, fsExists := fun _ => false,
    whisper := fun _ => Except.error (PyExn.generalErr "w"),
    removeFile := fun _ => Except.ok (), now := "T" }

/-- Concrete pipeline environment: call placement fails. -/
def envFail : PipelineEnv :=
  { callApi := apiCallFail, dlApi := dlApiStub, fsExists := fun _ => false,
    whisper := fun _ => Except.error (PyExn.generalErr "w"),
    removeFile := fun _ => Except.ok (), now := "T" }

/-- Constant environment family for concrete batch runs. -/
def envsW : Nat → PipelineEnv := fun _ => envOkNoRec

/-- Constant environment family for batch runs whose calls all fail. -/
def envsFailW : Nat → PipelineEnv := fun _ => envFail

/-- The INVALID row `validate_phone_number` produces under `envOkNoRec`. -/
def invRowW : ValidationResult :=
  { phone := "p1", status := Status.INVALID, transcribed_text := "",
    call_sid := some "CA123", timestamp := "T" }

/-- The ERROR row `validate_phone_number` produces under `envFail`. -/
def errRowW : ValidationResult :=
  { phone := "p0", status := Status.ERROR, transcribed_text := "Помилка дзвінка",
    call_sid := none, timestamp := "T" }

/-- Concrete parsed CSV rows: one padded phone, one blank, one missing. -/
def rowsW : List Row :=
  [[("phone", " +10000000001 ")], [("phone", "  ")], [("name", "x")]]

/-- Concrete two-row input file for batch-run theorems. -/
def fsTwoRows : Except FileErr (List Row) :=
  Except.ok [[("phone", "+10000000001")], [("phone", "+10000000002")]]

theorem strData_append (s t : String) : (s ++ t).data = s.data ++ t.data := by
  cases s
  cases t
  rfl

theorem mem_pyJoin_sub (sep a : String) :
    ∀ l : List String, a ∈ l → a.data <:+: (pyJoin sep l).data := by
  intro l
  induction l with
  | nil => intro h; cases h
  | cons x xs ih =>
    intro h
    cases xs with
    | nil =>
      rcases List.mem_singleton.1 h with rfl
      exact ⟨[], [], by simp [pyJoin]⟩
    | cons y ys =>
      rcases List.mem_cons.1 h with rfl | hmem
      · exact ⟨[], sep.data ++ (pyJoin sep (y :: ys)).data,
          by simp [pyJoin, strData_append, List.append_assoc]⟩
      · obtain ⟨s1, t1, hst⟩ := ih hmem
        refine ⟨(x ++ sep).data ++ s1, t1, ?_⟩
        rw [show pyJoin sep (x :: y :: ys) = x ++ sep ++ pyJoin sep (y :: ys) from rfl,
          strData_append, strData_append, ← hst]
        simp [List.append_assoc]

theorem sub_of_append (pre a rest : String) (h : a.data <:+: rest.data) :
    a.data <:+: (pre ++ rest).data := by
  obtain ⟨s1, t1, hst⟩ := h
  exact ⟨pre.data ++ s1, t1, by rw [strData_append, ← hst]; simp [List.append_assoc]⟩

theorem makeCall_isOk (api : TwilioCallApi) :
    ∃ v, make_call_with_recording api = Except.ok v := by
  unfold make_call_with_recording
  cases h : callTryBody api with
  | error e => cases e <;> exact ⟨(none, none), rfl⟩
  | ok v => exact ⟨v, rfl⟩

theorem validate_eq (env : PipelineEnv) (p : String) (c rec : Option String)
    (hc : make_call_with_recording env.callApi = Except.ok (c, rec)) :
    validate_phone_number env p =
      if pyTruthy c = false then
        Except.ok { phone := p, status := Status.ERROR,
                    transcribed_text := "Помилка дзвінка", call_sid := none,
                    timestamp := env.now }
      else
        Except.ok { phone := p,
                    status := if is_valid_number (pipelineTranscript env rec) then Status.VALID
                              else Status.INVALID,
                    transcribed_text := pipelineTranscript env rec, call_sid := c,
                    timestamp := env.now } := by
  unfold validate_phone_number
  rw [hc]

theorem validate_isOk (env : PipelineEnv) (p : String) :
    ∃ r, validate_phone_number env p = Except.ok r ∧ r.phone = p := by
  obtain ⟨⟨c, rec⟩, hc⟩ := makeCall_isOk env.callApi
  rw [validate_eq env p c rec hc]
  by_cases h : pyTruthy c = false
  · rw [if_pos h]; exact ⟨_, rfl, rfl⟩
  · rw [if_neg h]; exact ⟨_, rfl, rfl⟩

theorem validate_phone_field (env : PipelineEnv) (p : String) (r : ValidationResult)
    (hv : validate_phone_number env p = Except.ok r) : r.phone = p := by
  obtain ⟨r2, hr2, hp⟩ := validate_isOk env p
  rw [hv] at hr2
  cases hr2
  exact hp

theorem runPipeline_spec (envs : Nat → PipelineEnv) :
    ∀ (phones : List String) (i : Nat),
      ∃ rs, runPipeline envs phones i = Except.ok rs ∧
        rs.length = phones.length ∧
        ∀ j (h1 : j < rs.length) (h2 : j < phones.length),
          validate_phone_number (envs (i + j)) (phones.get ⟨j, h2⟩) =
            Except.ok (rs.get ⟨j, h1⟩) := by
  intro phones
  induction phones with
  | nil =>
    intro i
    exact ⟨[], rfl, rfl, fun j h1 h2 => absurd h2 (Nat.not_lt_zero j)⟩
  | cons p rest ih =>
    intro i
    obtain ⟨r, hr, _⟩ := validate_isOk (envs i) p
    obtain ⟨rs, hrs, hlen, hget⟩ := ih (i + 1)
    refine ⟨r :: rs, ?_, by simp [hlen], ?_⟩
    · unfold runPipeline
      rw [hr, hrs]
    · intro j h1 h2
      cases j with
      | zero => simpa using hr
      | succ k =>
        have h1k : k < rs.length := by simpa using h1
        have h2k : k < rest.length := by simpa using h2
        have hk := hget k h1k h2k
        have harith : i + (k + 1) = i + 1 + k := by omega
        rw [harith]
        simpa using hk

theorem collectPhones_eq_spec : ∀ rows : List Row, collectPhones rows = readPhoneNumbersSpec rows := by
  intro rows
  induction rows with
  | nil => rfl
  | cons row rest ih =>
    rw [readPhoneNumbersSpec, List.filterMap_cons]
    cases h : dictGet row "phone" with
    | none => simp only [collectPhones, h, ih, readPhoneNumbersSpec]
    | some v =>
      by_cases hv : pyStrip v = "" <;>
        simp only [collectPhones, h, hv, ih, readPhoneNumbersSpec, if_pos, if_neg,
          ite_true, ite_false, reduceIte]

theorem mem_readSpec : ∀ (rows : List Row) (s : String), s ∈ readPhoneNumbersSpec rows →
    s ≠ "" ∧ ∃ row, row ∈ rows ∧ ∃ v, dictGet row "phone" = some v ∧ s = pyStrip v := by
  intro rows
  induction rows with
  | nil => intro s h; simp [readPhoneNumbersSpec] at h
  | cons row rest ih =>
    intro s h
    rw [readPhoneNumbersSpec, List.filterMap_cons] at h
    cases hd : dictGet row "phone" with
    | none =>
      rw [hd] at h
      obtain ⟨hne, row2, hm, v, hv, hs⟩ := ih s h
      exact ⟨hne, row2, List.mem_cons_of_mem _ hm, v, hv, hs⟩
    | some v =>
      rw [hd] at h
      dsimp only at h
      by_cases hv : pyStrip v = ""
      · rw [if_pos hv] at h
        dsimp only at h
        obtain ⟨hne, row2, hm, v2, hv2, hs⟩ := ih s h
        exact ⟨hne, row2, List.mem_cons_of_mem _ hm, v2, hv2, hs⟩
      · rw [if_neg hv] at h
        dsimp only at h
        rcases List.mem_cons.1 h with rfl | hmem
        · exact ⟨hv, row, List.mem_cons_self _ _, v, hd, rfl⟩
        · obtain ⟨hne, row2, hm, v2, hv2, hs⟩ := ih s hmem
          exact ⟨hne, row2, List.mem_cons_of_mem _ hm, v2, hv2, hs⟩

/-- C3 (counterexample): the spec's classifier examples fail on the code: the
denylist is Ukrainian, so no phrase occurs in the English transcript
"the number you dialed is invalid", which therefore classifies as true, not
false as the claim's third example asserts. -/
theorem classifier_english_phrase_counterexample :
    ¬ (is_valid_number "" = false ∧ is_valid_number "ab" = false ∧
       is_valid_number "the number you dialed is invalid" = false ∧
       is_valid_number "hello, leave a message" = true) := by
  decide

/-- C3 (amended): the classifier's example values on the code:
`classify("")` is false; `classify("ab")` is false (stripped length below 3);
`classify("the number you dialed is invalid")` is true, since no phrase of
the (Ukrainian) denylist occurs in it; `classify("hello, leave a message")`
is true; and a transcript containing a denylist phrase, such as
"номер не обслуговується", classifies as false. -/
theorem classifier_example_values_amended :
    is_valid_number "" = false ∧ is_valid_number "ab" = false ∧
    is_valid_number "the number you dialed is invalid" = true ∧
    is_valid_number "hello, leave a message" = true ∧
    is_valid_number "номер не обслуговується" = false := by
  decide

/-- C4: if any of the four required configuration values is absent (falsy),
construction fails with a configuration error whose message lists every
missing name, not just the first. -/
theorem init_missing_credentials_lists_all (getenv : String → Option String)
    (hmiss : ∃ v, v ∈ required_vars ∧ pyTruthy (getenv v) = false) :
    ∃ msg, phoneValidator_init getenv = Except.error msg ∧
      ∀ v, v ∈ required_vars → pyTruthy (getenv v) = false → v.data <:+: msg.data := by
  obtain ⟨v0, hv0, hf0⟩ := hmiss
  have h0 : v0 ∈ required_vars.filter (fun v => !pyTruthy (getenv v)) :=
    List.mem_filter.2 ⟨hv0, by simp [hf0]⟩
  have hne : (required_vars.filter (fun v => !pyTruthy (getenv v))).isEmpty = false := by
    cases hfe : required_vars.filter (fun v => !pyTruthy (getenv v)) with
    | nil => rw [hfe] at h0; cases h0
    | cons a as => rfl
  have hvc : validate_credentials getenv =
      Except.error ("Відсутні змінні середовища: " ++
        pyJoin ", " (required_vars.filter (fun v => !pyTruthy (getenv v)))) := by
    unfold validate_credentials
    simp only [hne, Bool.false_eq_true, if_false]
  refine ⟨"Відсутні змінні середовища: " ++
    pyJoin ", " (required_vars.filter (fun v => !pyTruthy (getenv v))), ?_, ?_⟩
  · unfold phoneValidator_init
    rw [hvc]
  · intro v hv hf
    have hm : v ∈ required_vars.filter (fun v => !pyTruthy (getenv v)) :=
      List.mem_filter.2 ⟨hv, by simp [hf]⟩
    exact sub_of_append _ _ _ (mem_pyJoin_sub ", " v _ hm)

/-- C4 witness: with an empty environment, construction fails and the message
covers the first required name. -/
theorem init_missing_credentials_lists_all_witness :
    (∃ v, v ∈ required_vars ∧ pyTruthy ((fun _ => (none : Option String)) v) = false) ∧
    ∃ msg, phoneValidator_init (fun _ => none) = Except.error msg ∧
      ∀ v, v ∈ required_vars → pyTruthy ((fun _ => (none : Option String)) v) = false →
        v.data <:+: msg.data := by
  have h : ∃ v, v ∈ required_vars ∧ pyTruthy ((fun _ => (none : Option String)) v) = false :=
    ⟨"TWILIO_ACCOUNT_SID", by decide, rfl⟩
  exact ⟨h, init_missing_credentials_lists_all (fun _ => none) h⟩

/-- C5: on a readable file, the reader returns exactly the spec's described
sequence (stripped `phone` cells of rows with a non-blank one, in file
order), and every returned string is non-empty and is the stripped value of
some input row. -/
theorem read_phone_numbers_matches_spec (rows : List Row) :
    read_phone_numbers (Except.ok rows) = Except.ok (readPhoneNumbersSpec rows) ∧
    ∀ s ∈ readPhoneNumbersSpec rows,
      s ≠ "" ∧ ∃ row, row ∈ rows ∧ ∃ v, dictGet row "phone" = some v ∧ s = pyStrip v := by
  refine ⟨?_, fun s hs => mem_readSpec rows s hs⟩
  show Except.ok (collectPhones rows) = _
  rw [collectPhones_eq_spec]

/-- C5 witness: on a concrete file with a padded, a blank and a missing
phone cell, the reader returns the single stripped phone. -/
theorem read_phone_numbers_matches_spec_witness :
    read_phone_numbers (Except.ok rowsW) = Except.ok (readPhoneNumbersSpec rowsW) ∧
    readPhoneNumbersSpec rowsW = ["+10000000001"] ∧
    ("+10000000001" ≠ "" ∧ ∃ row, row ∈ rowsW ∧
      ∃ v, dictGet row "phone" = some v ∧ "+10000000001" = pyStrip v) := by
  refine ⟨(read_phone_numbers_matches_spec rowsW).1, by decide, ?_⟩
  exact (read_phone_numbers_matches_spec rowsW).2 "+10000000001" (by decide)

/-- C7: `make_call_with_recording` never raises: it always returns an `ok`
value, and whenever its `try` body raises, it returns `(none, none)`. -/
theorem make_call_never_raises (api : TwilioCallApi) :
    (∃ v, make_call_with_recording api = Except.ok v) ∧
    (∀ e, callTryBody api = Except.error e →
      make_call_with_recording api = Except.ok (none, none)) := by
  refine ⟨makeCall_isOk api, ?_⟩
  intro e he
  unfold make_call_with_recording
  rw [he]
  cases e <;> rfl

/-- C7 witness: a provider whose call placement raises yields `(none, none)`. -/
theorem make_call_never_raises_witness :
    callTryBody apiCallFail = Except.error (PyExn.twilioErr "boom") ∧
    make_call_with_recording apiCallFail = Except.ok (none, none) :=
  ⟨rfl, (make_call_never_raises apiCallFail).2 (PyExn.twilioErr "boom") rfl⟩

/-- C8: `read_phone_numbers` never throws: it always returns an `ok` list,
and on any read failure (file not found or any other) it returns the empty
list. -/
theorem read_phone_numbers_never_raises (file : Except FileErr (List Row)) :
    (∃ l, read_phone_numbers file = Except.ok l) ∧
    (∀ e, file = Except.error e → read_phone_numbers file = Except.ok []) := by
  cases file with
  | ok rows => exact ⟨⟨collectPhones rows, rfl⟩, fun e h => by cases h⟩
  | error e =>
    cases e with
    | fileNotFound => exact ⟨⟨[], rfl⟩, fun _ _ => rfl⟩
    | otherErr m => exact ⟨⟨[], rfl⟩, fun _ _ => rfl⟩

/-- C8 witness: a missing file yields the empty sequence. -/
theorem read_phone_numbers_never_raises_witness :
    read_phone_numbers (Except.error FileErr.fileNotFound) = Except.ok [] :=
  (read_phone_numbers_never_raises (Except.error FileErr.fileNotFound)).2
    FileErr.fileNotFound rfl

/-- C9: when the reader returns an empty sequence, `process_phone_list`
returns without creating the output file: no header, no rows. -/
theorem empty_reader_no_output (envs : Nat → PipelineEnv) (file : Except FileErr (List Row))
    (hr : read_phone_numbers file = Except.ok []) :
    process_phone_list envs file = Except.ok none := by
  unfold process_phone_list
  rw [hr]
  rfl

/-- C9 witness: with a missing input file no output file is produced. -/
theorem empty_reader_no_output_witness :
    process_phone_list envsW (Except.error FileErr.fileNotFound) = Except.ok none :=
  empty_reader_no_output envsW (Except.error FileErr.fileNotFound) rfl

/-- C1: the result's status is ERROR exactly when `make_call_with_recording`
returned no call identifier; with a call identifier present the status is
VALID or INVALID, purely as `is_valid_number` of the transcript carried in
the result.  (Provider call identifiers are assumed non-empty, as Twilio
sids are; the code's falsy test and the `none` test then agree.) -/
theorem validate_status_error_iff_no_call_sid (env : PipelineEnv) (phone : String)
    (r : ValidationResult) (c rec : Option String)
    (hv : validate_phone_number env phone = Except.ok r)
    (hc : make_call_with_recording env.callApi = Except.ok (c, rec))
    (hsid : ∀ s, c = some s → s ≠ "") :
    (r.status = Status.ERROR ↔ c = none) ∧
    (∀ s, c = some s →
      r.status = if is_valid_number r.transcribed_text then Status.VALID
                 else Status.INVALID) := by
  rw [validate_eq env phone c rec hc] at hv
  cases c with
  | none =>
    rw [if_pos (show pyTruthy (none : Option String) = false from rfl)] at hv
    cases hv
    exact ⟨iff_of_true rfl rfl, fun s h => nomatch h⟩
  | some s =>
    have hs : s ≠ "" := hsid s rfl
    have htr : ¬ (pyTruthy (some s) = false) := by
      simp [pyTruthy, String.isEmpty_iff, hs]
    rw [if_neg htr] at hv
    cases hv
    refine ⟨⟨?_, fun h => nomatch h⟩, fun s2 h2 => rfl⟩
    intro h
    exfalso
    dsimp only at h
    split at h
    · exact Status.noConfusion h
    · exact Status.noConfusion h

/-- C1 witness: a successfully placed call with no recording gives an
INVALID row, and the iff holds concretely. -/
theorem validate_status_error_iff_no_call_sid_witness :
    validate_phone_number envOkNoRec "p1" = Except.ok invRowW ∧
    make_call_with_recording envOkNoRec.callApi = Except.ok (some "CA123", none) ∧
    (∀ s, (some "CA123" : Option String) = some s → s ≠ "") ∧
    ((invRowW.status = Status.ERROR ↔ (some "CA123" : Option String) = none) ∧
     (∀ s, (some "CA123" : Option String) = some s →
       invRowW.status = if is_valid_number invRowW.transcribed_text then Status.VALID
                        else Status.INVALID)) := by
  have hsid : ∀ s, (some "CA123" : Option String) = some s → s ≠ "" := by
    intro s h
    cases h
    decide
  exact ⟨rfl, rfl, hsid,
    validate_status_error_iff_no_call_sid envOkNoRec "p1" invRowW (some "CA123") none
      rfl rfl hsid⟩

/-- C2: for a non-empty list of phone numbers returned by the reader,
`process_phone_list` produces the output file with exactly one result row
per input number, in input order: row `j` is the validation result of input
number `j` and carries its phone string. -/
theorem process_writes_one_row_per_input (envs : Nat → PipelineEnv)
    (file : Except FileErr (List Row)) (phones : List String)
    (hr : read_phone_numbers file = Except.ok phones) (hne : phones ≠ []) :
    ∃ rows, process_phone_list envs file =
        Except.ok (some { header := fieldnames, rows := rows }) ∧
      rows.length = phones.length ∧
      ∀ j (h1 : j < rows.length) (h2 : j < phones.length),
        validate_phone_number (envs (1 + j)) (phones.get ⟨j, h2⟩) =
          Except.ok (rows.get ⟨j, h1⟩) ∧
        (rows.get ⟨j, h1⟩).phone = phones.get ⟨j, h2⟩ := by
  obtain ⟨rs, hrs, hlen, hget⟩ := runPipeline_spec envs phones 1
  refine ⟨rs, ?_, hlen, ?_⟩
  · have hie : phones.isEmpty = false := by
      cases phones with
      | nil => exact absurd rfl hne
      | cons a as => rfl
    unfold process_phone_list
    rw [hr]
    dsimp only
    rw [hie]
    simp only [Bool.false_eq_true, if_false]
    rw [hrs]
  · intro j h1 h2
    exact ⟨hget j h1 h2, validate_phone_field _ _ _ (hget j h1 h2)⟩

/-- C2 witness: a concrete two-number input yields an output file with two
rows in input order. -/
theorem process_writes_one_row_per_input_witness :
    read_phone_numbers fsTwoRows = Except.ok ["+10000000001", "+10000000002"] ∧
    (["+10000000001", "+10000000002"] : List String) ≠ [] ∧
    ∃ rows, process_phone_list envsW fsTwoRows =
        Except.ok (some { header := fieldnames, rows := rows }) ∧
      rows.length = (["+10000000001", "+10000000002"] : List String).length ∧
      ∀ j (h1 : j < rows.length)
        (h2 : j < (["+10000000001", "+10000000002"] : List String).length),
        validate_phone_number (envsW (1 + j))
            ((["+10000000001", "+10000000002"] : List String).get ⟨j, h2⟩) =
          Except.ok (rows.get ⟨j, h1⟩) ∧
        (rows.get ⟨j, h1⟩).phone =
          (["+10000000001", "+10000000002"] : List String).get ⟨j, h2⟩ := by
  have h1 : read_phone_numbers fsTwoRows = Except.ok ["+10000000001", "+10000000002"] := rfl
  have h2 : (["+10000000001", "+10000000002"] : List String) ≠ [] := List.cons_ne_nil _ _
  exact ⟨h1, h2, process_writes_one_row_per_input envsW fsTwoRows _ h1 h2⟩

/-- C6: with a call identifier obtained but an empty transcript, the result
status is INVALID. -/
theorem empty_transcript_yields_invalid (env : PipelineEnv) (p : String)
    (r : ValidationResult) (c rec : Option String)
    (hv : validate_phone_number env p = Except.ok r)
    (hc : make_call_with_recording env.callApi = Except.ok (c, rec))
    (htruthy : pyTruthy c = true)
    (ht : r.transcribed_text = "") :
    r.status = Status.INVALID := by
  rw [validate_eq env p c rec hc] at hv
  rw [if_neg (by simp [htruthy])] at hv
  cases hv
  dsimp only at ht ⊢
  rw [ht]
  decide

/-- C6 witness: call placed, no recording found, hence empty transcript and
an INVALID row. -/
theorem empty_transcript_yields_invalid_witness :
    validate_phone_number envOkNoRec "p1" = Except.ok invRowW ∧
    make_call_with_recording envOkNoRec.callApi = Except.ok (some "CA123", none) ∧
    pyTruthy (some "CA123") = true ∧
    invRowW.transcribed_text = "" ∧
    invRowW.status = Status.INVALID := by
  refine ⟨rfl, rfl, rfl, rfl, ?_⟩
  exact empty_transcript_yields_invalid envOkNoRec "p1" invRowW (some "CA123") none
    rfl rfl rfl rfl

/-- C10: a result whose call placement yielded no truthy call identifier has
`call_sid = none`, the fixed sentinel transcript "Помилка дзвінка", and
status ERROR. -/
theorem error_row_sentinel_fields (env : PipelineEnv) (p : String)
    (r : ValidationResult) (c rec : Option String)
    (hv : validate_phone_number env p = Except.ok r)
    (hc : make_call_with_recording env.callApi = Except.ok (c, rec))
    (hfalsy : pyTruthy c = false) :
    r.call_sid = none ∧ r.transcribed_text = "Помилка дзвінка" ∧
    r.status = Status.ERROR := by
  rw [validate_eq env p c rec hc] at hv
  rw [if_pos hfalsy] at hv
  cases hv
  exact ⟨rfl, rfl, rfl⟩

/-- C10 witness: a failed call placement produces the sentinel ERROR row. -/
theorem error_row_sentinel_fields_witness :
    validate_phone_number envFail "p0" = Except.ok errRowW ∧
    make_call_with_recording envFail.callApi = Except.ok (none, none) ∧
    pyTruthy (none : Option String) = false ∧
    (errRowW.call_sid = none ∧ errRowW.transcribed_text = "Помилка дзвінка" ∧
      errRowW.status = Status.ERROR) := by
  refine ⟨rfl, rfl, rfl, ?_⟩
  exact error_row_sentinel_fields envFail "p0" errRowW none none rfl rfl rfl

end PhoneValidatorAI
